import Mathlib

/-!
Verification of the image submission and response normalization flow of the
picture-classifier screen (src/pictureclassifier/app/(tabs)/index.tsx).

The source file holds two variants of the same screen. The first defines
classifyImageViaApi (multipart field "image", confidence normalized to [0,1],
error fallback "Unable to classify image.", label read from the "label" field
with a string type guard). The second defines mockModelInference (multipart
field "file", confidence kept as a 0-100 percentage, error fallback
"Failed to classify image.", label read as predicted_class ?? label ??
"Unknown" with no type guard). Both derive the upload file name from the URI
and the MIME type from the file name in the same way.

JavaScript values appearing in response bodies are modelled by an inductive
Json type; numbers are rationals. Property access data.k on a parsed JSON
object is modelled by an association-list lookup returning Option Json
(none models undefined). The fetch call is modelled by a FetchOutcome that
is either a network failure (the promise rejects) or a Response carrying the
HTTP status, the body text (as read by response.text()) and the parsed JSON
body (as produced by response.json(); none models a JSON parse failure).
-/

namespace PictureClassifier

/-- A JSON / JavaScript value as it appears in a parsed response body. -/
inductive Json where
  | null : Json
  | bool (b : Bool) : Json
  | num (q : ℚ) : Json
  | str (s : String) : Json
  | arr (elems : List Json) : Json
  | obj (fields : List (String × Json)) : Json

/-- Property access data.k: the field named k of a JSON object, none when the
value is not an object or has no such field (modelling undefined). -/
def jsGet : Json → String → Option Json
  | .obj fields, k => fields.lookup k
  | _, _ => none

/-- The test typeof v === 'number' applied to an optional field value. -/
def isNumber : Option Json → Bool
  | some (.num _) => true
  | _ => false

/-- The test typeof v === 'string' applied to an optional field value. -/
def isString : Option Json → Bool
  | some (.str _) => true
  | _ => false

/-- Whether an optional field value is nullish (undefined or null), the
condition under which the JavaScript ?? operator falls through. -/
def isNullish : Option Json → Bool
  | none => true
  | some .null => true
  | some _ => false

/-- The JavaScript nullish coalescing a ?? b for an optional field value a. -/
def jsCoalesce (a : Option Json) (b : Json) : Json :=
  match a with
  | none => b
  | some .null => b
  | some v => v

/-- Confidence extraction shared verbatim by both variants
(index.tsx lines 130-135 and 746-751):
typeof data.confidence_percent === 'number' ? data.confidence_percent
: typeof data.confidence === 'number' ? data.confidence * 100 : 0. -/
def extractPercent (data : Json) : ℚ :=
  match jsGet data "confidence_percent" with
  | some (.num q) => q
  | _ =>
    match jsGet data "confidence" with
    | some (.num q) => q * 100
    | _ => 0

/-- Label extraction of classifyImageViaApi (line 138):
typeof data.label === 'string' ? data.label : 'Unknown'. -/
def apiLabel (data : Json) : String :=
  match jsGet data "label" with
  | some (.str s) => s
  | _ => "Unknown"

/-- Label extraction of mockModelInference (line 754):
data.predicted_class ?? data.label ?? 'Unknown'. No type guard is applied,
so the resulting value need not be a string. -/
def mockLabel (data : Json) : Json :=
  jsCoalesce (jsGet data "predicted_class")
    (jsCoalesce (jsGet data "label") (.str "Unknown"))

/-- JavaScript String.prototype.split with a one-character separator, on the
character list of the string. Splitting the empty list yields one empty
segment, exactly as "".split(sep) yields [""]. -/
def splitOnChar (sep : Char) : List Char → List (List Char)
  | [] => [[]]
  | c :: cs =>
    let rest := splitOnChar sep cs
    if c = sep then [] :: rest
    else
      match rest with
      | h :: t => (c :: h) :: t
      | [] => [[c]]

/-- The expression s.split(sep).pop(): the last segment of the split, as an
Option because Array.prototype.pop can in general return undefined (it never
does here, since a split result is never empty). -/
def jsSplitPop (sep : Char) (s : String) : Option String :=
  (splitOnChar sep s.data).getLast?.map (fun cs => String.mk cs)

/-- JavaScript String.prototype.toLowerCase restricted to the character-wise
lowering that both engines agree on for ASCII file extensions. -/
def jsToLower (s : String) : String :=
  String.mk (s.data.map Char.toLower)

/-- The upload file name: uri.split('/').pop() ?? fallback
(index.tsx line 101 with fallback "upload.jpg", line 716 with "image.jpg"). -/
def jsFileName (uri : String) (fallback : String) : String :=
  match jsSplitPop '/' uri with
  | some n => n
  | none => fallback

/-- The extension used by both variants (lines 102 and 717):
fileName.split('.').pop()?.toLowerCase(). For a file name without a dot this
is the whole (lowercased) file name, because split returns the name itself as
the only segment. -/
def fileExtension (fileName : String) : Option String :=
  (jsSplitPop '.' fileName).map jsToLower

/-- The MIME type derivation shared by both variants (lines 104-111 and
719-726): png, heic and webp map to their image types, anything else to
image/jpeg. -/
def mimeTypeOf (fileName : String) : String :=
  match fileExtension fileName with
  | some "png" => "image/png"
  | some "heic" => "image/heic"
  | some "webp" => "image/webp"
  | _ => "image/jpeg"

/-- One file part of the multipart form body. -/
structure UploadPart where
  fieldName : String
  fileName : String
  mimeType : String
deriving DecidableEq

/-- The form-data part built by classifyImageViaApi (lines 100-117): field
name "image", file name from the URI with fallback "upload.jpg". -/
def classifyRequestPart (uri : String) : UploadPart :=
  let fileName := jsFileName uri "upload.jpg"
  { fieldName := "image", fileName := fileName, mimeType := mimeTypeOf fileName }

/-- The form-data part built by mockModelInference (lines 714-732): field
name "file", file name from the URI with fallback "image.jpg". -/
def mockRequestPart (uri : String) : UploadPart :=
  let fileName := jsFileName uri "image.jpg"
  { fieldName := "file", fileName := fileName, mimeType := mimeTypeOf fileName }

/-- An HTTP response as the pipelines observe it: the status code, the body
read as text by response.text(), and the body parsed by response.json()
(none models a JSON parse failure, which makes response.json() reject). -/
structure Response where
  status : Nat
  bodyText : String
  bodyJson : Option Json

/-- The fetch Response.ok flag: status in the inclusive range 200-299. -/
def Response.ok (r : Response) : Bool :=
  decide (200 ≤ r.status) && decide (r.status < 300)

/-- The outcome of awaiting fetch: either the promise rejects (network
failure: DNS, connection refused, timeout) or it resolves to a Response of
any status. -/
inductive FetchOutcome where
  | failure : FetchOutcome
  | response (r : Response) : FetchOutcome

/-- An error escaping a pipeline invocation: a thrown Error with its message,
a propagated network failure, or a rejection of response.json(). -/
inductive PipeError where
  | thrown (msg : String)
  | network
  | jsonParse
deriving DecidableEq

/-- The Prediction record of the first variant (index.tsx lines 19-22); its
label is always a string because of the type guard at line 138. -/
structure Prediction where
  label : String
  confidence : ℚ
deriving DecidableEq

/-- The prediction record as mockModelInference actually builds it: the label
is whatever JSON value predicted_class ?? label ?? 'Unknown' produced, not
necessarily a string. -/
structure MockPrediction where
  label : Json
  confidence : ℚ

/-- classifyImageViaApi (index.tsx lines 99-141), from the fetch onward: on a
rejected fetch the error propagates (there is no try/catch); on a non-ok
response it throws new Error(text || 'Unable to classify image.'); otherwise
it parses the JSON body and returns the label with confidence percent / 100. -/
def classifyImageViaApi (uri : String) (outcome : FetchOutcome) :
    Except PipeError Prediction :=
  let _part := classifyRequestPart uri
  match outcome with
  | .failure => .error .network
  | .response r =>
    if r.ok = false then
      .error (.thrown (if r.bodyText = "" then "Unable to classify image." else r.bodyText))
    else
      match r.bodyJson with
      | none => .error .jsonParse
      | some data =>
        .ok { label := apiLabel data, confidence := extractPercent data / 100 }

/-- mockModelInference (index.tsx lines 712-761), from the fetch onward: its
try/catch only logs and rethrows, so errors propagate unchanged; on a non-ok
response it throws new Error(text || 'Failed to classify image.'); otherwise
it returns predicted_class ?? label ?? 'Unknown' with the confidence kept as
a 0-100 percentage. -/
def mockModelInference (uri : String) (outcome : FetchOutcome) :
    Except PipeError MockPrediction :=
  let _part := mockRequestPart uri
  match outcome with
  | .failure => .error .network
  | .response r =>
    if r.ok = false then
      .error (.thrown (if r.bodyText = "" then "Failed to classify image." else r.bodyText))
    else
      match r.bodyJson with
      | none => .error .jsonParse
      | some data =>
        .ok { label := mockLabel data, confidence := extractPercent data }

/-- The spec's wording of the claimed extension rule: the extension is the
lowercased substring after the LAST dot of the file name, and a file name
containing no dot has no (a missing) extension. -/
def claimedExtension (fileName : String) : Option String :=
  match splitOnChar '.' fileName.data with
  | [] => none
  | [_] => none
  | parts => parts.getLast?.map (fun cs => String.mk (cs.map Char.toLower))

/-- The MIME mapping exactly as the claim words it: image/png, image/heic,
image/webp when the claimed extension is png, heic, webp; image/jpeg for
every other or missing extension. -/
def claimedMimeType (fileName : String) : String :=
  match claimedExtension fileName with
  | some e =>
    if e = "png" then "image/png"
    else if e = "heic" then "image/heic"
    else if e = "webp" then "image/webp"
    else "image/jpeg"
  | none => "image/jpeg"

/-- The amended wording of the extension rule: the extension is the last
dot-separated segment of the file name, lowercased; a file name with no dot
counts in full as its own extension. -/
def amendedExtension (fileName : String) : Option String :=
  (splitOnChar '.' fileName.data).getLast?.map (fun cs => String.mk (cs.map Char.toLower))

/-- The MIME mapping as the amended claim words it, over amendedExtension. -/
def amendedMimeType (fileName : String) : String :=
  match amendedExtension fileName with
  | some e =>
    if e = "png" then "image/png"
    else if e = "heic" then "image/heic"
    else if e = "webp" then "image/webp"
    else "image/jpeg"
  | none => "image/jpeg"

/-- The display state of the first screen variant (index.tsx lines 27-31)
restricted to the fields the submission flow touches, together with a ghost
count of in-flight classification requests. -/
structure ScreenState where
  imageUri : Option String
  prediction : Option Prediction
  isClassifying : Bool
  resultModalVisible : Bool
  inFlight : Nat
deriving DecidableEq

/-- The state the screen mounts in: nothing selected, nothing in flight. -/
def initialState : ScreenState :=
  { imageUri := none, prediction := none, isClassifying := false
    resultModalVisible := false, inFlight := 0 }

/-- The events that drive the submission flow: a press of the Classify
button, resolution of the in-flight request with a prediction or with an
error, and the camera or gallery collaborator delivering a new image. -/
inductive UiEvent where
  | pressClassify
  | resolveSuccess (p : Prediction)
  | resolveFailure (e : PipeError)
  | chooseImage (uri : String)

/-- One transition of the screen. A press is delivered only when the button
is enabled (disabled is exactly !hasImage || isClassifying at line 207, and
handleClassify itself returns early when no image is set at lines 144-147);
an ignored press leaves the state unchanged. A delivered press runs the head
of handleClassify (setIsClassifying(true), line 149) and puts one request in
flight. Resolution applies the rest of handleClassify: on success the
prediction and result modal are set (lines 151-152), on failure only an
alert is shown (line 155), and in both cases the finally block clears the
flag (line 157). Choosing an image applies lines 67-69 and 93-95. -/
def stepUi (s : ScreenState) (e : UiEvent) : ScreenState :=
  match e with
  | .pressClassify =>
    if s.imageUri.isSome && !s.isClassifying then
      { s with isClassifying := true, inFlight := s.inFlight + 1 }
    else s
  | .resolveSuccess p =>
    if 0 < s.inFlight then
      { s with prediction := some p, resultModalVisible := true
               isClassifying := false, inFlight := s.inFlight - 1 }
    else s
  | .resolveFailure _ =>
    if 0 < s.inFlight then
      { s with isClassifying := false, inFlight := s.inFlight - 1 }
    else s
  | .chooseImage u =>
    { s with imageUri := some u, prediction := none, resultModalVisible := false }

/-- Run the screen over a list of events. -/
def runUi (s : ScreenState) : List UiEvent → ScreenState
  | [] => s
  | e :: es => runUi (stepUi s e) es

/-- The single-flight invariant: never more than one request in flight, and
the isClassifying flag is set exactly while one is. -/
def singleFlight (s : ScreenState) : Prop :=
  s.inFlight ≤ 1 ∧ (s.isClassifying = true ↔ s.inFlight = 1)

/-- The net effect of one whole handleClassify invocation of the first
variant (index.tsx lines 143-159), given the outcome of the awaited
classifyImageViaApi call: with no image it alerts and returns; on success it
stores the prediction and opens the result modal; on failure it alerts; in
both cases the finally block ends with isClassifying false. -/
def handleClassify (s : ScreenState) (outcome : Except PipeError Prediction) :
    ScreenState :=
  match s.imageUri with
  | none => s
  | some _ =>
    match outcome with
    | .ok p =>
      { s with prediction := some p, resultModalVisible := true, isClassifying := false }
    | .error _ => { s with isClassifying := false }

/-- The display state of the second screen variant (index.tsx lines 467-469)
restricted to the fields its handleClassify touches. -/
structure MockScreenState where
  selectedImageUri : Option String
  prediction : Option MockPrediction
  isClassifying : Bool

/-- The net effect of one whole handleClassify invocation of the second
variant (index.tsx lines 579-592), given the outcome of the awaited
mockModelInference call: with no image it returns; otherwise it sets the
flag, clears the prediction, stores the result on success, and the finally
block ends with isClassifying false (there is no catch, so on failure the
error propagates after the finally block has cleared the flag). -/
def handleClassifyMock (s : MockScreenState)
    (outcome : Except PipeError MockPrediction) : MockScreenState :=
  match s.selectedImageUri with
  | none => s
  | some _ =>
    match outcome with
    | .ok p => { s with prediction := some p, isClassifying := false }
    | .error _ => { s with prediction := none, isClassifying := false }

lemma Response.ok_iff (r : Response) : r.ok = true ↔ 200 ≤ r.status ∧ r.status < 300 := by
  simp [Response.ok]

/-- C1: each pipeline variant returns a Prediction only when the HTTP
response status is 2xx; every non-2xx response and every network failure
yields an error and never a (partial) Prediction. -/
theorem prediction_only_on_success :
    (∀ (uri : String) (o : FetchOutcome) (p : Prediction),
        classifyImageViaApi uri o = .ok p →
        ∃ r, o = .response r ∧ 200 ≤ r.status ∧ r.status < 300) ∧
    (∀ (uri : String) (o : FetchOutcome) (q : MockPrediction),
        mockModelInference uri o = .ok q →
        ∃ r, o = .response r ∧ 200 ≤ r.status ∧ r.status < 300) ∧
    (∀ (uri : String) (r : Response), r.ok = false →
        (∃ e, classifyImageViaApi uri (.response r) = .error e) ∧
        (∃ e, mockModelInference uri (.response r) = .error e)) ∧
    (∀ uri : String,
        classifyImageViaApi uri .failure = .error .network ∧
        mockModelInference uri .failure = .error .network) := by
  refine ⟨?_, ?_, ?_, ?_⟩
  · intro uri o p h
    cases o with
    | failure => simp [classifyImageViaApi] at h
    | response r =>
      refine ⟨r, rfl, ?_⟩
      rw [← Response.ok_iff]
      cases hok : r.ok with
      | false => simp [classifyImageViaApi, hok] at h
      | true => rfl
  · intro uri o q h
    cases o with
    | failure => simp [mockModelInference] at h
    | response r =>
      refine ⟨r, rfl, ?_⟩
      rw [← Response.ok_iff]
      cases hok : r.ok with
      | false => simp [mockModelInference, hok] at h
      | true => rfl
  · intro uri r hok
    constructor
    · exact ⟨.thrown (if r.bodyText = "" then "Unable to classify image." else r.bodyText),
        by simp [classifyImageViaApi, hok]⟩
    · exact ⟨.thrown (if r.bodyText = "" then "Failed to classify image." else r.bodyText),
        by simp [mockModelInference, hok]⟩
  · intro uri
    exact ⟨rfl, rfl⟩

/-- C1 witness: a 200 response with an empty JSON object body produces a
Prediction, and the theorem recovers the 2xx bound for it. -/
theorem prediction_only_on_success_witness :
    ∃ r, (FetchOutcome.response { status := 200, bodyText := "", bodyJson := some (.obj []) }) =
        .response r ∧ 200 ≤ r.status ∧ r.status < 300 :=
  prediction_only_on_success.1 "file:///a/b.jpg" _ { label := "Unknown", confidence := 0 / 100 } rfl

/-- C2: on a successful JSON body the extracted percentage is the numeric
confidence_percent field when present, else 100 times the numeric confidence
field when present, else 0. -/
theorem confidence_extraction_rule (fs : List (String × Json)) :
    (∀ q : ℚ, jsGet (.obj fs) "confidence_percent" = some (.num q) →
        extractPercent (.obj fs) = q) ∧
    (isNumber (jsGet (.obj fs) "confidence_percent") = false →
      ∀ q : ℚ, jsGet (.obj fs) "confidence" = some (.num q) →
        extractPercent (.obj fs) = q * 100) ∧
    (isNumber (jsGet (.obj fs) "confidence_percent") = false →
      isNumber (jsGet (.obj fs) "confidence") = false →
        extractPercent (.obj fs) = 0) := by
  refine ⟨?_, ?_, ?_⟩
  · intro q h
    simp [extractPercent, h]
  · intro hnp q h
    unfold extractPercent
    cases hv : jsGet (Json.obj fs) "confidence_percent" with
    | none => simp [hv, h]
    | some v =>
      rw [hv] at hnp
      cases v <;> simp [isNumber] at hnp <;> simp [hv, h]
  · intro hnp hnc
    unfold extractPercent
    cases hv : jsGet (Json.obj fs) "confidence_percent" with
    | none =>
      cases hw : jsGet (Json.obj fs) "confidence" with
      | none => simp [hv, hw]
      | some w =>
        rw [hw] at hnc
        cases w <;> simp [isNumber] at hnc <;> simp [hv, hw]
    | some v =>
      rw [hv] at hnp
      cases v <;> simp [isNumber] at hnp <;>
        · cases hw : jsGet (Json.obj fs) "confidence" with
          | none => simp [hv, hw]
          | some w =>
            rw [hw] at hnc
            cases w <;> simp [isNumber] at hnc <;> simp [hv, hw]

/-- C2 witness: the three extraction cases at concrete bodies. -/
theorem confidence_extraction_rule_witness :
    extractPercent (.obj [("confidence_percent", Json.num 42)]) = 42 ∧
    extractPercent (.obj [("confidence", Json.num (1 / 2))]) = (1 / 2) * 100 ∧
    extractPercent (.obj [("class_id", Json.num 3)]) = 0 :=
  ⟨(confidence_extraction_rule [("confidence_percent", Json.num 42)]).1 42 rfl,
   (confidence_extraction_rule [("confidence", Json.num (1 / 2))]).2.1 rfl (1 / 2) rfl,
   (confidence_extraction_rule [("class_id", Json.num 3)]).2.2 rfl rfl⟩

/-- C3 counterexample: on a non-2xx response with an empty body the second
variant falls back to the message "Failed to classify image.", not to
"Unable to classify image." as the claim states for the whole pipeline. -/
theorem mock_error_fallback_counterexample :
    mockModelInference "file:///a/b.jpg"
      (.response { status := 500, bodyText := "", bodyJson := none }) =
      .error (.thrown "Failed to classify image.") ∧
    ("Failed to classify image." : String) ≠ "Unable to classify image." :=
  ⟨rfl, by decide⟩

/-- C3 amended: on every non-2xx response both variants throw an error whose
message is exactly the body text when that text is non-empty; on an empty
body classifyImageViaApi falls back to "Unable to classify image." while
mockModelInference falls back to "Failed to classify image.". -/
theorem error_message_from_body (uri : String) (r : Response) (h : r.ok = false) :
    (r.bodyText ≠ "" →
      classifyImageViaApi uri (.response r) = .error (.thrown r.bodyText) ∧
      mockModelInference uri (.response r) = .error (.thrown r.bodyText)) ∧
    (r.bodyText = "" →
      classifyImageViaApi uri (.response r) = .error (.thrown "Unable to classify image.") ∧
      mockModelInference uri (.response r) = .error (.thrown "Failed to classify image.")) := by
  constructor
  · intro hne
    constructor <;> simp [classifyImageViaApi, mockModelInference, h, hne]
  · intro he
    constructor <;> simp [classifyImageViaApi, mockModelInference, h, he]

/-- C3 amended witness: the body "model unavailable" of a 503 becomes the
error message of both variants verbatim. -/
theorem error_message_from_body_witness :
    classifyImageViaApi "file:///a/b.jpg"
      (.response { status := 503, bodyText := "model unavailable", bodyJson := none }) =
      .error (.thrown "model unavailable") ∧
    mockModelInference "file:///a/b.jpg"
      (.response { status := 503, bodyText := "model unavailable", bodyJson := none }) =
      .error (.thrown "model unavailable") :=
  (error_message_from_body "file:///a/b.jpg"
    { status := 503, bodyText := "model unavailable", bodyJson := none } rfl).1 (by decide)

/-- C4 counterexample: for the dot-less file name "png" the code derives
image/png, while the claim (extension taken after the last dot, missing when
there is no dot) requires image/jpeg. -/
theorem mime_dotless_counterexample :
    mimeTypeOf "png" = "image/png" ∧
    claimedMimeType "png" = "image/jpeg" ∧
    ("image/png" : String) ≠ "image/jpeg" :=
  ⟨by decide, by decide, by decide⟩

/-- C4 amended: the derived MIME type is image/png, image/heic or image/webp
exactly when the last dot-separated segment of the file name, lowercased, is
png, heic or webp, where a file name with no dot counts in full as its own
extension, and image/jpeg in every other case. -/
theorem mime_from_last_dot_segment (fileName : String) :
    mimeTypeOf fileName = amendedMimeType fileName := by
  have hext : fileExtension fileName = amendedExtension fileName := by
    unfold fileExtension amendedExtension jsSplitPop jsToLower
    cases h : (splitOnChar '.' fileName.data).getLast? <;> simp [h]
  unfold mimeTypeOf amendedMimeType
  rw [hext]
  split
  · rename_i heq; rw [heq]; rfl
  · rename_i heq; rw [heq]; rfl
  · rename_i heq; rw [heq]; rfl
  · rename_i h1 h2 h3
    cases he : amendedExtension fileName with
    | none => rfl
    | some s =>
      rw [he] at h1 h2 h3
      have hs1 : ¬ s = "png" := fun h => h1 (by rw [h])
      have hs2 : ¬ s = "heic" := fun h => h2 (by rw [h])
      have hs3 : ¬ s = "webp" := fun h => h3 (by rw [h])
      simp [hs1, hs2, hs3]

/-- C5 counterexample: for a successful body whose predicted_class field is
the number 7, mockModelInference returns that number as the label, which is
neither a string nor the default "Unknown", refuting the claim that a
non-string label field always degrades to "Unknown". -/
theorem mock_label_type_counterexample :
    mockModelInference "file:///a/b.jpg"
      (.response { status := 200, bodyText := "",
                   bodyJson := some (.obj [("predicted_class", Json.num 7)]) }) =
      .ok { label := Json.num 7, confidence := 0 } ∧
    isString (some (Json.num 7)) = false ∧
    Json.num 7 ≠ Json.str "Unknown" :=
  ⟨rfl, rfl, by simp⟩

/-- C5 amended: classifyImageViaApi takes the label field when it is a
string and defaults to "Unknown" whenever that field is absent or not a
string; mockModelInference takes predicted_class when present and non-null,
else the label field when present and non-null, with no type guard on
either, and yields "Unknown" only when both are absent or null. -/
theorem label_extraction_rule (fs : List (String × Json)) :
    (∀ s, jsGet (.obj fs) "label" = some (.str s) → apiLabel (.obj fs) = s) ∧
    (isString (jsGet (.obj fs) "label") = false → apiLabel (.obj fs) = "Unknown") ∧
    (∀ v, jsGet (.obj fs) "predicted_class" = some v → isNullish (some v) = false →
        mockLabel (.obj fs) = v) ∧
    (isNullish (jsGet (.obj fs) "predicted_class") = true →
      ∀ v, jsGet (.obj fs) "label" = some v → isNullish (some v) = false →
        mockLabel (.obj fs) = v) ∧
    (isNullish (jsGet (.obj fs) "predicted_class") = true →
      isNullish (jsGet (.obj fs) "label") = true →
        mockLabel (.obj fs) = .str "Unknown") := by
  refine ⟨?_, ?_, ?_, ?_, ?_⟩
  · intro s h
    simp [apiLabel, h]
  · intro hns
    unfold apiLabel
    cases hv : jsGet (Json.obj fs) "label" with
    | none => simp [hv]
    | some v =>
      rw [hv] at hns
      cases v <;> simp [isString] at hns <;> simp [hv]
  · intro v h hnn
    cases v <;> simp [isNullish] at hnn <;> simp [mockLabel, jsCoalesce, h]
  · intro hnp v h hnn
    have hb : mockLabel (.obj fs) = jsCoalesce (jsGet (.obj fs) "label") (.str "Unknown") := by
      unfold mockLabel
      cases hv : jsGet (Json.obj fs) "predicted_class" with
      | none => simp [jsCoalesce]
      | some w =>
        rw [hv] at hnp
        cases w <;> simp [isNullish] at hnp <;> simp [jsCoalesce]
    rw [hb, h]
    cases v <;> simp [isNullish] at hnn <;> simp [jsCoalesce]
  · intro hnp hnl
    have hb : mockLabel (.obj fs) = jsCoalesce (jsGet (.obj fs) "label") (.str "Unknown") := by
      unfold mockLabel
      cases hv : jsGet (Json.obj fs) "predicted_class" with
      | none => simp [jsCoalesce]
      | some w =>
        rw [hv] at hnp
        cases w <;> simp [isNullish] at hnp <;> simp [jsCoalesce]
    rw [hb]
    cases hv : jsGet (Json.obj fs) "label" with
    | none => simp [jsCoalesce]
    | some w =>
      rw [hv] at hnl
      cases w <;> simp [isNullish] at hnl <;> simp [jsCoalesce]

/-- C5 amended witness: a string label is taken verbatim by the first
variant, a null predicted_class falls through to the label field in the
second, and two absent fields give the default. -/
theorem label_extraction_rule_witness :
    apiLabel (.obj [("label", Json.str "Dog")]) = "Dog" ∧
    mockLabel (.obj [("predicted_class", Json.null), ("label", Json.str "Dog")]) =
      Json.str "Dog" ∧
    mockLabel (.obj [("class_id", Json.num 3)]) = Json.str "Unknown" :=
  ⟨(label_extraction_rule [("label", Json.str "Dog")]).1 "Dog" rfl,
   (label_extraction_rule [("predicted_class", Json.null), ("label", Json.str "Dog")]).2.2.2.1
      rfl (Json.str "Dog") rfl rfl,
   (label_extraction_rule [("class_id", Json.num 3)]).2.2.2.2 rfl rfl⟩

/-- The successful response body of the C6 scenario. -/
def catBody : Json :=
  .obj [("predicted_class", Json.str "Cat"), ("confidence_percent", Json.num 42.5)]

/-- C6 counterexample: on the body with predicted_class "Cat" and
confidence_percent 42.5, the variant that divides by 100
(classifyImageViaApi) does produce confidence 0.425 but labels the result
"Unknown", because it reads only the label field and never predicted_class,
refuting the claimed label "Cat". -/
theorem normalized_cat_counterexample :
    classifyImageViaApi "file:///a/b.jpg"
      (.response { status := 200, bodyText := "", bodyJson := some catBody }) =
      .ok { label := "Unknown", confidence := 0.425 } ∧
    ("Unknown" : String) ≠ "Cat" := by
  constructor
  · have h : (0.425 : ℚ) = (42.5 : ℚ) / 100 := by norm_num
    rw [h]
    rfl
  · decide

/-- C6 amended: on that body classifyImageViaApi yields label "Unknown"
(it reads only the label field) with confidence 0.425, while
mockModelInference yields label "Cat" with confidence 42.5. -/
theorem cat_body_results (uri : String) :
    classifyImageViaApi uri
      (.response { status := 200, bodyText := "", bodyJson := some catBody }) =
      .ok { label := "Unknown", confidence := 0.425 } ∧
    mockModelInference uri
      (.response { status := 200, bodyText := "", bodyJson := some catBody }) =
      .ok { label := Json.str "Cat", confidence := 42.5 } := by
  constructor
  · have h : (0.425 : ℚ) = (42.5 : ℚ) / 100 := by norm_num
    rw [h]
    rfl
  · rfl

/-- C7: a successful JSON object body containing none of the fields label,
predicted_class, confidence, confidence_percent yields the default
Prediction (label "Unknown", confidence 0) from both variants, with no
failure. -/
theorem missing_fields_default (uri : String) (r : Response) (fs : List (String × Json))
    (hok : r.ok = true) (hjson : r.bodyJson = some (.obj fs))
    (hl : jsGet (.obj fs) "label" = none)
    (hp : jsGet (.obj fs) "predicted_class" = none)
    (hc : jsGet (.obj fs) "confidence" = none)
    (hcp : jsGet (.obj fs) "confidence_percent" = none) :
    classifyImageViaApi uri (.response r) = .ok { label := "Unknown", confidence := 0 } ∧
    mockModelInference uri (.response r) = .ok { label := .str "Unknown", confidence := 0 } := by
  have hper : extractPercent (.obj fs) = 0 := by
    simp [extractPercent, hc, hcp]
  have hal : apiLabel (.obj fs) = "Unknown" := by
    simp [apiLabel, hl]
  have hml : mockLabel (.obj fs) = .str "Unknown" := by
    simp [mockLabel, hp, hl, jsCoalesce]
  constructor
  · simp [classifyImageViaApi, hok, hjson, hper, hal]
  · simp [mockModelInference, hok, hjson, hper, hml]

/-- C7 witness: the empty JSON object body gives the default Prediction
from both variants. -/
theorem missing_fields_default_witness :
    classifyImageViaApi "file:///a/b.jpg"
      (.response { status := 200, bodyText := "", bodyJson := some (.obj []) }) =
      .ok { label := "Unknown", confidence := 0 } ∧
    mockModelInference "file:///a/b.jpg"
      (.response { status := 200, bodyText := "", bodyJson := some (.obj []) }) =
      .ok { label := .str "Unknown", confidence := 0 } :=
  missing_fields_default "file:///a/b.jpg"
    { status := 200, bodyText := "", bodyJson := some (.obj []) } []
    rfl rfl rfl rfl rfl rfl

/-- C8: on every successful body with a numeric confidence_percent or
confidence field, the two variants disagree by exactly the factor 100: the
confidence of classifyImageViaApi is the confidence of mockModelInference
divided by 100. -/
theorem confidence_convention_divergence (uri : String) (r : Response)
    (fs : List (String × Json)) (hok : r.ok = true) (hjson : r.bodyJson = some (.obj fs))
    (_hnum : isNumber (jsGet (.obj fs) "confidence_percent") = true ∨
             isNumber (jsGet (.obj fs) "confidence") = true) :
    ∃ (p : Prediction) (q : MockPrediction),
      classifyImageViaApi uri (.response r) = .ok p ∧
      mockModelInference uri (.response r) = .ok q ∧
      p.confidence = q.confidence / 100 := by
  refine ⟨{ label := apiLabel (.obj fs), confidence := extractPercent (.obj fs) / 100 },
          { label := mockLabel (.obj fs), confidence := extractPercent (.obj fs) }, ?_, ?_, rfl⟩
  · simp [classifyImageViaApi, hok, hjson]
  · simp [mockModelInference, hok, hjson]

/-- C8 witness: at a body with confidence_percent 50 the first variant
returns one hundredth of the second variant's confidence. -/
theorem confidence_convention_divergence_witness :
    ∃ (p : Prediction) (q : MockPrediction),
      classifyImageViaApi "file:///a/b.jpg"
        (.response { status := 200, bodyText := "",
                     bodyJson := some (.obj [("confidence_percent", Json.num 50)]) }) = .ok p ∧
      mockModelInference "file:///a/b.jpg"
        (.response { status := 200, bodyText := "",
                     bodyJson := some (.obj [("confidence_percent", Json.num 50)]) }) = .ok q ∧
      p.confidence = q.confidence / 100 :=
  confidence_convention_divergence "file:///a/b.jpg"
    { status := 200, bodyText := "",
      bodyJson := some (.obj [("confidence_percent", Json.num 50)]) }
    [("confidence_percent", Json.num 50)] rfl rfl (.inl rfl)

/-- Helper for C9: one screen transition preserves the single-flight
invariant. -/
lemma stepUi_singleFlight {s : ScreenState} (h : singleFlight s) (e : UiEvent) :
    singleFlight (stepUi s e) := by
  obtain ⟨h1, h2⟩ := h
  cases e with
  | pressClassify =>
    by_cases hc : (s.imageUri.isSome && !s.isClassifying) = true
    · have hcl : s.isClassifying = false := by
        rcases Bool.and_eq_true_iff.mp hc with ⟨-, hb⟩
        simpa using hb
      have hz : s.inFlight = 0 := by
        have : ¬ s.inFlight = 1 := fun hIF => by simp [hcl] at h2; omega
        omega
      simp [stepUi, hc, singleFlight, hz]
    · simp only [stepUi, Bool.not_eq_true] at hc ⊢
      rw [hc]
      exact ⟨h1, h2⟩
  | resolveSuccess p =>
    by_cases hc : 0 < s.inFlight
    · have : s.inFlight = 1 := by omega
      simp [stepUi, hc, singleFlight, this]
    · simp [stepUi, hc]
      exact ⟨h1, h2⟩
  | resolveFailure e =>
    by_cases hc : 0 < s.inFlight
    · have : s.inFlight = 1 := by omega
      simp [stepUi, hc, singleFlight, this]
    · simp [stepUi, hc]
      exact ⟨h1, h2⟩
  | chooseImage u =>
    exact ⟨h1, h2⟩

/-- C9: from the initial screen state every event sequence keeps at most one
request in flight with the isClassifying flag set exactly while one is, and
a press of Classify while the flag is set is ignored outright (the button is
disabled), so at most one submission is ever in flight. -/
theorem at_most_one_in_flight :
    (∀ evs : List UiEvent, singleFlight (runUi initialState evs)) ∧
    (∀ s : ScreenState, s.isClassifying = true → stepUi s .pressClassify = s) := by
  constructor
  · have hrun : ∀ (evs : List UiEvent) (s : ScreenState),
        singleFlight s → singleFlight (runUi s evs) := by
      intro evs
      induction evs with
      | nil => intro s hs; exact hs
      | cons e es ih => intro s hs; exact ih _ (stepUi_singleFlight hs e)
    intro evs
    refine hrun evs initialState ?_
    constructor
    · simp [initialState]
    · simp [initialState]
  · intro s hs
    simp [stepUi, hs]

/-- C9 witness: choosing an image and pressing Classify leaves the invariant
intact, and a press in a classifying state is a no-op. -/
theorem at_most_one_in_flight_witness :
    singleFlight (runUi initialState [.chooseImage "file:///a/b.jpg", .pressClassify]) ∧
    stepUi { imageUri := some "file:///a/b.jpg", prediction := none, isClassifying := true,
             resultModalVisible := false, inFlight := 1 } .pressClassify =
      { imageUri := some "file:///a/b.jpg", prediction := none, isClassifying := true,
        resultModalVisible := false, inFlight := 1 } :=
  ⟨at_most_one_in_flight.1 [.chooseImage "file:///a/b.jpg", .pressClassify],
   at_most_one_in_flight.2
     { imageUri := some "file:///a/b.jpg", prediction := none, isClassifying := true,
       resultModalVisible := false, inFlight := 1 } rfl⟩

/-- C10: every resolved invocation of handleClassify, in either variant and
whether the pipeline returned a Prediction or an error, ends with the
isClassifying flag false, provided the invocation started from a state an
invocation can start from (an image is selected, or the flag was not set,
which covers the early no-image return). -/
theorem classify_flag_cleared :
    (∀ (s : ScreenState) (o : Except PipeError Prediction),
        s.imageUri.isSome = true ∨ s.isClassifying = false →
        (handleClassify s o).isClassifying = false) ∧
    (∀ (s : MockScreenState) (o : Except PipeError MockPrediction),
        s.selectedImageUri.isSome = true ∨ s.isClassifying = false →
        (handleClassifyMock s o).isClassifying = false) := by
  constructor
  · intro s o h
    cases hi : s.imageUri with
    | none =>
      cases h with
      | inl hl => rw [hi] at hl; simp at hl
      | inr hr => simp [handleClassify, hi, hr]
    | some u => cases o with
      | ok p => simp [handleClassify, hi]
      | error e => simp [handleClassify, hi]
  · intro s o h
    cases hi : s.selectedImageUri with
    | none =>
      cases h with
      | inl hl => rw [hi] at hl; simp at hl
      | inr hr => simp [handleClassifyMock, hi, hr]
    | some u => cases o with
      | ok p => simp [handleClassifyMock, hi]
      | error e => simp [handleClassifyMock, hi]

/-- C10 witness: a failing invocation of the first variant and a succeeding
invocation of the second both end with the flag clear. -/
theorem classify_flag_cleared_witness :
    (handleClassify
      { imageUri := some "file:///a/b.jpg", prediction := none, isClassifying := false,
        resultModalVisible := false, inFlight := 0 } (.error .network)).isClassifying = false ∧
    (handleClassifyMock
      { selectedImageUri := some "file:///a/b.jpg", prediction := none, isClassifying := false }
      (.ok { label := .str "Cat", confidence := 90 })).isClassifying = false :=
  ⟨classify_flag_cleared.1
     { imageUri := some "file:///a/b.jpg", prediction := none, isClassifying := false,
       resultModalVisible := false, inFlight := 0 } (.error .network) (.inl rfl),
   classify_flag_cleared.2
     { selectedImageUri := some "file:///a/b.jpg", prediction := none, isClassifying := false }
     (.ok { label := .str "Cat", confidence := 90 }) (.inl rfl)⟩

end PictureClassifier
